import Mathlib

/-!
Verification of the async connection-pool bridge in `src/lib.rs`
(crate `actix-threadpool-diesel`).

The crate lets an async caller execute blocking diesel database operations
through an `r2d2` connection pool.  We shallowly embed the code:

* `AsyncError` (lib.rs 16-26): the three-variant error taxonomy.
* `optional` (lib.rs 32-40): the optional-result combinator.
* `run` / `transaction` (lib.rs 104-137): the connection-pool bridge,
  modelled over an explicit pool/database state so that connection
  checkout, transaction scoping and writes are observable.
* the five query adapters (lib.rs 170-230).

External collaborators (the r2d2 pool's `get`, diesel's
`Connection::transaction` begin/commit/rollback protocol and the
synchronous query operations `execute`/`load`/`get_result`/`first`)
are embedded with their documented semantics, parameterized by
fault-injection flags so every failure path of the bridge is reachable.
-/

namespace ATPD

/-- Model of `r2d2::Error`, the pool checkout failure.  Its `Display`
implementation prints the underlying message, modelled by the `msg` field. -/
structure R2d2Error where
  msg : String
deriving DecidableEq

/-- Display of an `r2d2::Error`: its message. -/
def R2d2Error.display (e : R2d2Error) : String := e.msg

/-- Model of `diesel::result::Error`.  `NotFound` is the variant the code
matches on (lib.rs line 36); all other driver failures are collapsed into
`DatabaseError` carrying a message, which is enough for every claim. -/
inductive DieselError where
  | NotFound : DieselError
  | DatabaseError : String → DieselError
deriving DecidableEq

/-- `AsyncError<E>` from lib.rs lines 16-26: checkout failure, operation
failure (the variant is called `Error` in the code, `Operation` in the
design document), or cancellation of the dispatched task. -/
inductive AsyncError (E : Type) where
  | Checkout : R2d2Error → AsyncError E
  | Error : E → AsyncError E
  | Canceled : AsyncError E
deriving DecidableEq

/-- `OptionalExtension::optional` from lib.rs lines 32-40: `Ok v` becomes
`Ok (some v)`, an operation error that is exactly `NotFound` becomes
`Ok none`, every other error is returned unchanged. -/
def optional {T : Type} :
    Except (AsyncError DieselError) T → Except (AsyncError DieselError) (Option T)
  | .ok value => .ok (some value)
  | .error (AsyncError.Error DieselError.NotFound) => .ok none
  | .error e => .error e

/-- `Display for AsyncError` from lib.rs lines 42-50, parameterized by the
display function of the operation error type `E`. -/
def AsyncError.display {E : Type} (dispE : E → String) : AsyncError E → String
  | .Checkout err => err.display
  | .Error err => dispE err
  | .Canceled => "task was cancelled"

/-- The value returned by `StdError::source`: either the underlying pool
error or the underlying operation error. -/
inductive SourceRef (E : Type) where
  | pool : R2d2Error → SourceRef E
  | operation : E → SourceRef E
deriving DecidableEq

/-- `StdError::source for AsyncError` from lib.rs lines 52-60: `Checkout`
and `Error` chain to their payload, `Canceled` has no source. -/
def AsyncError.source {E : Type} : AsyncError E → Option (SourceRef E)
  | .Checkout err => some (.pool err)
  | .Error err => some (.operation err)
  | .Canceled => none

/-- Abstract state of the database as seen through one pooled connection:
the committed rows, the rows written inside the currently open transaction
but not yet committed, whether a transaction is open, and on which
connection handle it was opened. -/
structure DbState where
  committed : List Nat
  pending : List Nat
  txOpen : Bool
  txConn : Option Nat
deriving DecidableEq

/-- Fault-injection flags for the driver's transaction protocol, fixed for
the duration of one bridge call (the closure cannot alter them). -/
structure DriverFaults where
  beginFails : Bool
  commitFails : Bool
  rollbackFails : Bool
deriving DecidableEq

/-- Driver `BEGIN`: opens a transaction scope on connection `h`.  On
failure the state is unchanged. -/
def beginTx (fl : DriverFaults) (h : Nat) (db : DbState) :
    Except DieselError Unit × DbState :=
  if fl.beginFails then (.error (.DatabaseError "could not begin transaction"), db)
  else (.ok (), { db with txOpen := true, txConn := some h, pending := [] })

/-- Driver `COMMIT`: persists the pending writes; a failing commit discards
them (the database does not keep half a transaction). -/
def commitTx (fl : DriverFaults) (db : DbState) :
    Except DieselError Unit × DbState :=
  if fl.commitFails then
    (.error (.DatabaseError "commit failed"),
     { db with txOpen := false, txConn := none, pending := [] })
  else
    (.ok (),
     { db with
         txOpen := false
         txConn := none
         committed := db.committed ++ db.pending
         pending := [] })

/-- Driver `ROLLBACK`: discards the pending writes. -/
def rollbackTx (fl : DriverFaults) (db : DbState) :
    Except DieselError Unit × DbState :=
  if fl.rollbackFails then (.error (.DatabaseError "rollback failed"), db)
  else (.ok (), { db with txOpen := false, txConn := none, pending := [] })

/-- A write issued by a closure through its connection: inside an open
transaction it is buffered as pending, otherwise it commits directly. -/
def writeOp (w : Nat) (db : DbState) : DbState :=
  if db.txOpen then { db with pending := db.pending ++ [w] }
  else { db with committed := db.committed ++ [w] }

/-- diesel's `Connection::transaction` (the external call made at lib.rs
line 133): begin the transaction, run the body; on body success commit and
return the value unless the commit fails; on body failure roll back and
return the body's error unless the rollback fails.  Protocol errors are
converted into `E` through the `From<diesel::result::Error>` bound,
modelled by `eFrom`. -/
def connTransaction {R E : Type} (fl : DriverFaults) (eFrom : DieselError → E)
    (h : Nat) (body : DbState → Except E R × DbState) (db : DbState) :
    Except E R × DbState :=
  match beginTx fl h db with
  | (.error de, db1) => (.error (eFrom de), db1)
  | (.ok _, db1) =>
    match body db1 with
    | (.ok value, db2) =>
      match commitTx fl db2 with
      | (.ok _, db3) => (.ok value, db3)
      | (.error de, db3) => (.error (eFrom de), db3)
    | (.error e, db2) =>
      match rollbackTx fl db2 with
      | (.ok _, db3) => (.error e, db3)
      | (.error de, db3) => (.error (eFrom de), db3)

/-- State of the r2d2 pool handle: the database reachable through it,
whether `get` currently fails (exhaustion, drain, config error), the id
the next checked-out connection handle will carry, and an instrumentation
counter of successful checkouts. -/
structure PoolState where
  db : DbState
  checkoutFail : Option R2d2Error
  nextId : Nat
  checkouts : Nat
deriving DecidableEq

/-- `Pool::get` (the external call made at lib.rs lines 80, 118 and 132):
either fails with the pool's error, or hands out a fresh connection handle
and bumps the checkout counter. -/
def checkout (st : PoolState) : Except R2d2Error Nat × PoolState :=
  match st.checkoutFail with
  | some err => (.error err, st)
  | none =>
    (.ok st.nextId,
     { st with nextId := st.nextId + 1, checkouts := st.checkouts + 1 })

/-- `tokio::task::block_in_place`: runs the closure in place on a context
where blocking is allowed and returns its value unchanged. -/
def blockInPlace {A : Type} (g : Unit → A) : A := g ()

/-- `AsyncConnection::run` from lib.rs lines 110-121: inside one blocking
dispatch, check out a connection (mapping failure to `Checkout`), invoke
`f` on it, and map the closure's error to the operation-error variant.
The closure receives the connection handle and acts on the database
state. -/
def run {R E : Type} (st : PoolState)
    (f : Nat → DbState → Except E R × DbState) :
    Except (AsyncError E) R × PoolState :=
  blockInPlace fun _ =>
    match checkout st with
    | (.error p, st1) => (.error (.Checkout p), st1)
    | (.ok conn, st1) =>
      match f conn st1.db with
      | (.ok value, db2) => (.ok value, { st1 with db := db2 })
      | (.error e, db2) => (.error (.Error e), { st1 with db := db2 })

/-- `AsyncConnection::transaction` from lib.rs lines 124-136: identical to
`run` except the closure invocation is wrapped in
`conn.transaction(|| f(&*conn))` — the very connection that was checked
out is the one the transaction scope is opened on and the one passed to
`f`. -/
def transaction {R E : Type} (fl : DriverFaults) (eFrom : DieselError → E)
    (st : PoolState) (f : Nat → DbState → Except E R × DbState) :
    Except (AsyncError E) R × PoolState :=
  blockInPlace fun _ =>
    match checkout st with
    | (.error p, st1) => (.error (.Checkout p), st1)
    | (.ok conn, st1) =>
      match connTransaction fl eFrom conn (fun db => f conn db) st1.db with
      | (.ok value, db2) => (.ok value, { st1 with db := db2 })
      | (.error e, db2) => (.error (.Error e), { st1 with db := db2 })

/-- A diesel query object, opaque to the bridge: the rows it yields in its
own defined order, the affected-row count when executed as a statement,
and an optional driver failure raised when it is run. -/
structure Query (U : Type) where
  rows : List U
  affected : Nat
  execFail : Option DieselError

/-- diesel `RunQueryDsl::load`: every matching row, in query order. -/
def Query.load {U : Type} (q : Query U) : Except DieselError (List U) :=
  match q.execFail with
  | some e => .error e
  | none => .ok q.rows

/-- diesel `RunQueryDsl::get_result`: load, then the first row, failing
with `NotFound` when the query matched zero rows. -/
def Query.get_result {U : Type} (q : Query U) : Except DieselError U :=
  match q.load with
  | .error e => .error e
  | .ok [] => .error .NotFound
  | .ok (r :: _) => .ok r

/-- diesel `RunQueryDsl::get_results`: alias of `load`. -/
def Query.get_results {U : Type} (q : Query U) : Except DieselError (List U) :=
  q.load

/-- diesel `RunQueryDsl::execute`: the affected-row count. -/
def Query.execute {U : Type} (q : Query U) : Except DieselError Nat :=
  match q.execFail with
  | some e => .error e
  | none => .ok q.affected

/-- diesel `LimitDsl::limit`: restrict the query to its first `n` rows. -/
def Query.limit {U : Type} (n : Nat) (q : Query U) : Query U :=
  { q with rows := q.rows.take n }

/-- diesel `RunQueryDsl::first`: apply `limit 1`, then `get_result`. -/
def Query.first {U : Type} (q : Query U) : Except DieselError U :=
  (Query.limit 1 q).get_result

/-- `execute_async` from lib.rs lines 176-184:
`asc.run(|conn| self.execute(&*conn))`. -/
def execute_async {U : Type} (st : PoolState) (q : Query U) :
    Except (AsyncError DieselError) Nat × PoolState :=
  run st (fun _ db => (q.execute, db))

/-- `load_async` from lib.rs lines 186-195:
`asc.run(|conn| self.load(&*conn))`. -/
def load_async {U : Type} (st : PoolState) (q : Query U) :
    Except (AsyncError DieselError) (List U) × PoolState :=
  run st (fun _ db => (q.load, db))

/-- `get_result_async` from lib.rs lines 197-206:
`asc.run(|conn| self.get_result(&*conn))`. -/
def get_result_async {U : Type} (st : PoolState) (q : Query U) :
    Except (AsyncError DieselError) U × PoolState :=
  run st (fun _ db => (q.get_result, db))

/-- `get_results_async` from lib.rs lines 208-217:
`asc.run(|conn| self.get_results(&*conn))`. -/
def get_results_async {U : Type} (st : PoolState) (q : Query U) :
    Except (AsyncError DieselError) (List U) × PoolState :=
  run st (fun _ db => (q.get_results, db))

/-- `first_async` from lib.rs lines 219-229:
`asc.run(|conn| self.first(&*conn))`. -/
def first_async {U : Type} (st : PoolState) (q : Query U) :
    Except (AsyncError DieselError) U × PoolState :=
  run st (fun _ db => (q.first, db))

/-- Spec-side shape of the query adapters, written from the design
document's words: each adapter "is implemented purely by constructing the
appropriate closure and delegating to `run`; no additional logic lives
here" — `run` applied to a closure that invokes the given synchronous
query operation and nothing else. -/
def specAdapter {U R : Type} (op : Query U → Except DieselError R)
    (st : PoolState) (q : Query U) :
    Except (AsyncError DieselError) R × PoolState :=
  run st (fun _ db => (op q, db))

/-- Spec-side synchronous operation behind `first_async`, from the design
document's words: "apply an implicit limit 1 before execution, return the
first row by the query's defined ordering". -/
def firstSpecOp {U : Type} (q : Query U) : Except DieselError U :=
  Query.get_result (Query.limit 1 q)

/-- Modelled from the spec: the Blocking-Call Dispatcher of section 4.3 is
absent from `src/` (the repository counts two parameterization variants of
the design and only the `block_in_place` one is present; in it nothing
constructs `Canceled`).  Per the spec, the dispatch either runs the
closure to completion and delivers its result, or — when the dispatch
mechanism is torn down, rejects the work, or the awaiting task is
abandoned — is `abandoned`. -/
inductive DispatchOutcome where
  | delivered : DispatchOutcome
  | abandoned : DispatchOutcome
deriving DecidableEq

/-- Modelled from the spec (section 4.3): the dispatcher returns the
closure's result when delivery happens, and "surfaces the dispatch
mechanism's own failure (e.g., execution-context rejection) as
`Canceled`" otherwise. -/
def dispatch {R E : Type} (out : DispatchOutcome)
    (g : Unit → Except (AsyncError E) R) : Except (AsyncError E) R :=
  match out with
  | .delivered => g ()
  | .abandoned => .error .Canceled

/-- `run` as observed by a caller awaiting through the spec's dispatcher:
the bridge result when delivered, `Canceled` when abandoned. -/
def run_dispatched {R E : Type} (out : DispatchOutcome) (st : PoolState)
    (f : Nat → DbState → Except E R × DbState) : Except (AsyncError E) R :=
  dispatch out (fun _ => (run st f).1)

/-- The database state the closure sees inside `transaction`, right after
the driver's `BEGIN` succeeded on the freshly checked-out connection. -/
def beginState (st : PoolState) : DbState :=
  { st.db with txOpen := true, txConn := some st.nextId, pending := [] }

/-- Sample database state for concrete instantiations. -/
def dbW : DbState := ⟨[], [], false, none⟩

/-- Sample pool state whose checkout succeeds. -/
def stW : PoolState := ⟨dbW, none, 0, 0⟩

/-- Sample pool state whose checkout fails. -/
def stFailW : PoolState := ⟨dbW, some ⟨"pool exhausted"⟩, 0, 0⟩

/-- Sample fault-free driver. -/
def flW : DriverFaults := ⟨false, false, false⟩

/-- C1: when checkout succeeds and the closure returns `Ok v`, `run`
returns `Ok v` with the value unmodified. -/
theorem run_ok_passthrough {R E : Type} (st : PoolState)
    (f : Nat → DbState → Except E R × DbState) (v : R) (db2 : DbState)
    (hco : st.checkoutFail = none)
    (hf : f st.nextId st.db = (.ok v, db2)) :
    (run st f).1 = Except.ok v := by
  simp [run, blockInPlace, checkout, hco, hf]

/-- Witness for C1 at a concrete pool state and closure. -/
theorem run_ok_passthrough_witness :
    (run stW (fun _ db => ((Except.ok 42 : Except DieselError Nat), db))).1 =
      Except.ok 42 :=
  run_ok_passthrough stW _ 42 dbW rfl rfl

/-- C2: when checkout fails with pool error `p`, the result is
`Checkout p` (so never the operation-error variant and never `Canceled`),
the pool and database state is untouched, and the closure is not invoked:
the outcome is the same whatever closure is supplied. -/
theorem run_checkout_failure {R E : Type} (st : PoolState) (p : R2d2Error)
    (f : Nat → DbState → Except E R × DbState)
    (hco : st.checkoutFail = some p) :
    run st f = (.error (.Checkout p), st) ∧
    ∀ g : Nat → DbState → Except E R × DbState, run st f = run st g := by
  refine ⟨?_, fun g => ?_⟩
  · simp [run, blockInPlace, checkout, hco]
  · simp [run, blockInPlace, checkout, hco]

/-- Witness for C2: a failing pool, probed with two different closures. -/
theorem run_checkout_failure_witness :
    run stFailW (fun _ db => ((Except.ok 1 : Except DieselError Nat), db)) =
      (.error (.Checkout ⟨"pool exhausted"⟩), stFailW) ∧
    run stFailW (fun _ db => ((Except.ok 1 : Except DieselError Nat), db)) =
      run stFailW (fun _ db =>
        ((Except.error DieselError.NotFound : Except DieselError Nat), db)) := by
  have h := run_checkout_failure stFailW ⟨"pool exhausted"⟩
    (fun _ db => ((Except.ok 1 : Except DieselError Nat), db)) rfl
  exact ⟨h.1, h.2 _⟩

/-- C3: when checkout succeeds but the closure returns `Err e`, the result
is the operation-error variant wrapping exactly that `e`. -/
theorem run_operation_error {R E : Type} (st : PoolState)
    (f : Nat → DbState → Except E R × DbState) (e : E) (db2 : DbState)
    (hco : st.checkoutFail = none)
    (hf : f st.nextId st.db = (.error e, db2)) :
    (run st f).1 = .error (.Error e) := by
  simp [run, blockInPlace, checkout, hco, hf]

/-- Witness for C3 at a concrete pool state and failing closure. -/
theorem run_operation_error_witness :
    (run stW (fun _ db =>
        ((Except.error DieselError.NotFound : Except DieselError Nat), db))).1 =
      .error (.Error DieselError.NotFound) :=
  run_operation_error stW _ DieselError.NotFound dbW rfl rfl

/-- C4: `optional` maps `Ok v` to `Ok (some v)`, maps the operation error
`NotFound` to `Ok none`, and returns `Checkout`, `Canceled` and every
other operation error unchanged. -/
theorem optional_cases {T : Type} (v : T) (p : R2d2Error) (e : DieselError) :
    optional (Except.ok v) = .ok (some v) ∧
    (optional (Except.error (AsyncError.Error DieselError.NotFound)) :
        Except (AsyncError DieselError) (Option T)) = .ok none ∧
    optional (Except.error (AsyncError.Checkout p) :
        Except (AsyncError DieselError) T) = .error (.Checkout p) ∧
    optional (Except.error AsyncError.Canceled :
        Except (AsyncError DieselError) T) = .error .Canceled ∧
    (e ≠ DieselError.NotFound →
      optional (Except.error (AsyncError.Error e) :
          Except (AsyncError DieselError) T) = .error (.Error e)) := by
  refine ⟨rfl, rfl, rfl, rfl, fun h => ?_⟩
  cases e with
  | NotFound => exact absurd rfl h
  | DatabaseError s => rfl

/-- Witness for C4 at concrete values, including a non-`NotFound`
operation error. -/
theorem optional_cases_witness :
    optional (Except.ok 7) = Except.ok (some 7) ∧
    optional (Except.error (AsyncError.Error (DieselError.DatabaseError "boom")) :
        Except (AsyncError DieselError) Nat) =
      Except.error (AsyncError.Error (DieselError.DatabaseError "boom")) := by
  have h := optional_cases (7 : Nat) ⟨"x"⟩ (DieselError.DatabaseError "boom")
  exact ⟨h.1, h.2.2.2.2 (by decide)⟩

/-- C6: when the dispatch is abandoned (mechanism torn down, work
rejected, or awaiting task dropped before the closure finishes), the
caller observes `Canceled`, for every pool state and closure. -/
theorem run_dispatched_abandoned_canceled {R E : Type} (st : PoolState)
    (f : Nat → DbState → Except E R × DbState) :
    run_dispatched .abandoned st f = .error .Canceled := rfl

/-- C9: `Display` of `Checkout p` is the display of `p`, of the
operation-error variant is the display of its payload, and of `Canceled`
is "task was cancelled"; `source` chains to the pool or operation error
and is `none` for `Canceled`. -/
theorem asyncError_diagnostics {E : Type} (dispE : E → String)
    (p : R2d2Error) (e : E) :
    AsyncError.display dispE (.Checkout p) = p.display ∧
    AsyncError.display dispE (.Error e) = dispE e ∧
    AsyncError.display dispE (.Canceled : AsyncError E) = "task was cancelled" ∧
    AsyncError.source (.Checkout p : AsyncError E) = some (.pool p) ∧
    AsyncError.source (.Error e : AsyncError E) = some (.operation e) ∧
    AsyncError.source (.Canceled : AsyncError E) = none :=
  ⟨rfl, rfl, rfl, rfl, rfl, rfl⟩

/-- Whenever checkout succeeds, `transaction` performs exactly one
checkout, whatever the closure and driver faults. -/
theorem transaction_checkouts {R E : Type} (st : PoolState) (fl : DriverFaults)
    (eFrom : DieselError → E) (f : Nat → DbState → Except E R × DbState)
    (hco : st.checkoutFail = none) :
    ((transaction fl eFrom st f).2).checkouts = st.checkouts + 1 := by
  unfold transaction blockInPlace
  simp only [checkout, hco]
  split <;> rfl

/-- C5: inside `transaction` with a successful checkout and `BEGIN`:
a failing closure rolls back (no partial writes remain committed) and the
closure's own error is the result; a succeeding closure commits its writes
and its value is the result; a failing commit surfaces the commit failure
as the operation error in place of the closure's success. -/
theorem transaction_semantics {R E : Type} (st : PoolState) (fl : DriverFaults)
    (eFrom : DieselError → E) (f : Nat → DbState → Except E R × DbState)
    (hco : st.checkoutFail = none) (hb : fl.beginFails = false) :
    (∀ e db2, f st.nextId (beginState st) = (.error e, db2) →
      fl.rollbackFails = false → db2.committed = st.db.committed →
      (transaction fl eFrom st f).1 = .error (.Error e) ∧
      ((transaction fl eFrom st f).2).db.committed = st.db.committed) ∧
    (∀ v db2, f st.nextId (beginState st) = (.ok v, db2) →
      fl.commitFails = false →
      (transaction fl eFrom st f).1 = .ok v ∧
      ((transaction fl eFrom st f).2).db.committed =
        db2.committed ++ db2.pending) ∧
    (∀ v db2, f st.nextId (beginState st) = (.ok v, db2) →
      fl.commitFails = true →
      (transaction fl eFrom st f).1 =
        .error (.Error (eFrom (DieselError.DatabaseError "commit failed")))) := by
  refine ⟨fun e db2 hf hrb hcm => ?_, fun v db2 hf hc => ?_,
    fun v db2 hf hc => ?_⟩
  all_goals simp only [beginState] at hf
  · constructor
    · simp [transaction, blockInPlace, checkout, hco, connTransaction,
        beginTx, hb, beginState, hf, rollbackTx, hrb]
    · simp [transaction, blockInPlace, checkout, hco, connTransaction,
        beginTx, hb, beginState, hf, rollbackTx, hrb, hcm]
  · constructor
    · simp [transaction, blockInPlace, checkout, hco, connTransaction,
        beginTx, hb, beginState, hf, commitTx, hc]
    · simp [transaction, blockInPlace, checkout, hco, connTransaction,
        beginTx, hb, beginState, hf, commitTx, hc]
  · simp [transaction, blockInPlace, checkout, hco, connTransaction,
      beginTx, hb, beginState, hf, commitTx, hc]

/-- Witness for C5: a closure that writes then fails leaves the committed
rows empty and surfaces its own error; a closure that writes then succeeds
returns its value; under an injected commit failure the commit error
replaces the success. -/
theorem transaction_semantics_witness :
    (transaction flW (fun de => de) stW
        (fun _ db => ((Except.error DieselError.NotFound :
          Except DieselError Nat), writeOp 7 db))).1 =
      .error (.Error DieselError.NotFound) ∧
    ((transaction flW (fun de => de) stW
        (fun _ db => ((Except.error DieselError.NotFound :
          Except DieselError Nat), writeOp 7 db))).2).db.committed = [] ∧
    (transaction flW (fun de => de) stW
        (fun _ db => ((Except.ok 5 : Except DieselError Nat),
          writeOp 7 db))).1 = Except.ok 5 ∧
    (transaction ⟨false, true, false⟩ (fun de => de) stW
        (fun _ db => ((Except.ok 5 : Except DieselError Nat),
          writeOp 7 db))).1 =
      .error (.Error (DieselError.DatabaseError "commit failed")) := by
  have h1 := (transaction_semantics stW flW (fun de => de)
      (fun _ db => ((Except.error DieselError.NotFound :
        Except DieselError Nat), writeOp 7 db)) rfl rfl).1
      DieselError.NotFound _ rfl rfl rfl
  have h2 := (transaction_semantics stW flW (fun de => de)
      (fun _ db => ((Except.ok 5 : Except DieselError Nat),
        writeOp 7 db)) rfl rfl).2.1 5 _ rfl rfl
  have h3 := (transaction_semantics stW ⟨false, true, false⟩ (fun de => de)
      (fun _ db => ((Except.ok 5 : Except DieselError Nat),
        writeOp 7 db)) rfl rfl).2.2 5 _ rfl rfl
  exact ⟨h1.1, h1.2, h2.1, h3⟩

/-- C7: each query adapter is exactly `run` applied to the closure that
invokes the corresponding synchronous operation and nothing else, and the
operation behind `first_async` is `limit 1` followed by taking the first
row in query order. -/
theorem adapters_delegate_to_run {U : Type} (st : PoolState) (q : Query U) :
    execute_async st q = specAdapter Query.execute st q ∧
    load_async st q = specAdapter Query.load st q ∧
    get_result_async st q = specAdapter Query.get_result st q ∧
    get_results_async st q = specAdapter Query.get_results st q ∧
    first_async st q = specAdapter firstSpecOp st q :=
  ⟨rfl, rfl, rfl, rfl, rfl⟩

/-- C8: against a query matching zero rows, `get_result_async` returns
the operation error `NotFound`, and the same call composed with
`optional` yields `Ok none`. -/
theorem get_result_async_zero_rows {U : Type} (st : PoolState) (q : Query U)
    (hco : st.checkoutFail = none) (hrows : q.rows = [])
    (hfail : q.execFail = none) :
    (get_result_async st q).1 = .error (.Error DieselError.NotFound) ∧
    optional (get_result_async st q).1 = .ok none := by
  have hq : q.get_result = .error DieselError.NotFound := by
    simp [Query.get_result, Query.load, hrows, hfail]
  constructor
  · simp [get_result_async, run, blockInPlace, checkout, hco, hq]
  · simp [get_result_async, run, blockInPlace, checkout, hco, hq, optional]

/-- Witness for C8: a concrete empty query. -/
theorem get_result_async_zero_rows_witness :
    (get_result_async stW (⟨[], 0, none⟩ : Query Nat)).1 =
      .error (.Error DieselError.NotFound) ∧
    optional (get_result_async stW (⟨[], 0, none⟩ : Query Nat)).1 =
      .ok none :=
  get_result_async_zero_rows stW ⟨[], 0, none⟩ rfl rfl rfl

/-- C10: `transaction` checks out exactly one connection, and the closure
runs on the very connection handle on which the transaction scope was
opened: a closure observing its handle and the transaction owner sees the
checked-out handle in both places. -/
theorem transaction_same_connection (st : PoolState) (fl : DriverFaults)
    (hco : st.checkoutFail = none) (hb : fl.beginFails = false)
    (hc : fl.commitFails = false) :
    (transaction fl (fun de => de) st
        (fun h db => ((Except.ok (h, db.txConn) :
          Except DieselError (Nat × Option Nat)), db))).1 =
      .ok (st.nextId, some st.nextId) ∧
    ∀ (R E : Type) (eFrom : DieselError → E)
      (f : Nat → DbState → Except E R × DbState),
      ((transaction fl eFrom st f).2).checkouts = st.checkouts + 1 := by
  constructor
  · simp [transaction, blockInPlace, checkout, hco, connTransaction,
      beginTx, hb, commitTx, hc]
  · intro R E eFrom f
    exact transaction_checkouts st fl eFrom f hco

/-- Witness for C10: with one fault-free pool the observer closure sees
handle 0 as both its argument and the transaction owner, and the checkout
counter ends at one. -/
theorem transaction_same_connection_witness :
    (transaction flW (fun de => de) stW
        (fun h db => ((Except.ok (h, db.txConn) :
          Except DieselError (Nat × Option Nat)), db))).1 =
      .ok (0, some 0) ∧
    ((transaction flW (fun de => de) stW
        (fun _ db => ((Except.ok 1 : Except DieselError Nat),
          db))).2).checkouts = 1 := by
  have h := transaction_same_connection stW flW rfl rfl rfl
  exact ⟨h.1, h.2 Nat DieselError (fun de => de) _⟩

end ATPD
